import Mathlib

/-!
Verification development for three presentation-layer components of a block
editor: the table block's edit component (`TableEdit`), the mobile
`LinkPickerScreen`, and the edit-site `Header`.

The data model and the event handlers are translated from the JavaScript
source. The table block imports pure helpers (`createTable`,
`updateSelectedCell`, `insertRow`, `deleteRow`, `insertColumn`,
`deleteColumn`, `toggleSection`, `isEmptyTableSection`) from a `state`
module that is not part of the reviewed files; those helpers are modelled
from the specification, as indicated by their doc comments.
-/

set_option autoImplicit false

namespace TableBlock

/-- A table cell: content, a tag kind (header vs data cell), an optional
scope and an optional alignment. -/
structure Cell where
  content : String
  tag : String
  scope : Option String
  align : Option String

deriving instance DecidableEq for Cell

/-- A table row: an ordered sequence of cells. -/
structure Row where
  cells : List Cell

deriving instance DecidableEq for Row

/-- A table section is an ordered sequence of rows. -/
abbrev TableSection := List Row

/-- The three named sections of a table. -/
inductive SectionName where
  | head
  | body
  | foot

deriving instance DecidableEq for SectionName

/-- The table block's attribute object, as destructured by `TableEdit`. -/
structure TableAttributes where
  hasFixedLayout : Bool
  caption : String
  head : TableSection
  body : TableSection
  foot : TableSection

deriving instance DecidableEq for TableAttributes

/-- Read the named section of the attribute object. -/
def getSection (a : TableAttributes) : SectionName → TableSection
  | SectionName.head => a.head
  | SectionName.body => a.body
  | SectionName.foot => a.foot

/-- Replace the named section of the attribute object. -/
def setSection (a : TableAttributes) (n : SectionName) (s : TableSection) :
    TableAttributes :=
  match n with
  | SectionName.head => { a with head := s }
  | SectionName.body => { a with body := s }
  | SectionName.foot => { a with foot := s }

/-- The kind of a cell selection: a single cell or a whole column. -/
inductive SelType where
  | cell
  | column

deriving instance DecidableEq for SelType

/-- A cell selection object. `sectionName` is optional because the
selection produced after a column insertion records no section name; the
`rowIndex` of a column selection is unused (JS leaves it `undefined`). -/
structure CellSel where
  type : SelType
  sectionName : Option SectionName
  rowIndex : Nat
  columnIndex : Nat

deriving instance DecidableEq for CellSel

/-- The location of one cell inside the table. -/
structure CellLocation where
  sectionName : SectionName
  rowIndex : Nat
  columnIndex : Nat

deriving instance DecidableEq for CellLocation

/-- Modelled from the spec: `isEmptyTableSection` of the block's `state`
helpers (not in the reviewed files). A section is empty when "its row
sequence is empty or every row has no cells". -/
def isEmptyTableSection (s : TableSection) : Bool :=
  s.isEmpty || s.all fun r => r.cells.isEmpty

/-- A blank cell uses the header tag in the `head` section and the data
tag elsewhere. -/
def blankCell (sectionName : SectionName) : Cell :=
  { content := ""
    tag := if sectionName = SectionName.head then "th" else "td"
    scope := none
    align := none }

/-- A blank row of the given width. -/
def blankRow (sectionName : SectionName) (cellCount : Nat) : Row :=
  { cells := List.replicate cellCount (blankCell sectionName) }

/-- Cell count of a section's first row, `0` when the section has no rows
(JS reads `section[0].cells.length`, which is `undefined` and hence falsy
for an empty section). -/
def firstRowWidth (s : TableSection) : Nat :=
  match s with
  | [] => 0
  | r :: _ => r.cells.length

/-- Modelled from the spec: `createTable` of the block's `state` helpers
(not in the reviewed files) builds the body of a fresh table: `rowCount`
rows of `columnCount` blank data cells. Negative counts produce no
rows/cells, matching iteration a negative number of times in JS. -/
def createTable (rowCount columnCount : Int) : TableSection :=
  List.replicate rowCount.toNat
    { cells := List.replicate columnCount.toNat
        { content := "", tag := "td", scope := none, align := none } }

/-- Modelled from the spec: whether a cell location is covered by a
selection. A `column` selection covers every cell with the selected column
index in every row of every section; a `cell` selection covers only the
cell at the recorded section, row and column. -/
def isCellSelected (loc : CellLocation) (sel : CellSel) : Bool :=
  match sel.type with
  | SelType.column => loc.columnIndex = sel.columnIndex
  | SelType.cell =>
      some loc.sectionName = sel.sectionName
        ∧ loc.rowIndex = sel.rowIndex ∧ loc.columnIndex = sel.columnIndex

/-- Map over a list with the index of each element, starting at `i`. -/
def mapIdxAux {α β : Type} (f : Nat → α → β) : Nat → List α → List β
  | _, [] => []
  | i, a :: as => f i a :: mapIdxAux f (i + 1) as

/-- Map over a list with the index of each element. -/
def mapIdxL {α β : Type} (f : Nat → α → β) (l : List α) : List β :=
  mapIdxAux f 0 l

/-- Apply `updateCell` to every covered cell of one section. -/
def updateSection (name : SectionName) (sel : CellSel)
    (updateCell : Cell → Cell) (s : TableSection) : TableSection :=
  mapIdxL
    (fun ri row =>
      { cells := mapIdxL
          (fun ci cell =>
            if isCellSelected
                { sectionName := name, rowIndex := ri, columnIndex := ci }
                sel then
              updateCell cell
            else
              cell)
          row.cells })
    s

/-- Modelled from the spec: `updateSelectedCell` of the block's `state`
helpers (not in the reviewed files) returns a replacement attribute object
in which `updateCell` has been applied to every cell covered by the
selection, all other cells staying as they are. -/
def updateSelectedCell (state : TableAttributes) (sel : CellSel)
    (updateCell : Cell → Cell) : TableAttributes :=
  { state with
    head := updateSection SectionName.head sel updateCell state.head
    body := updateSection SectionName.body sel updateCell state.body
    foot := updateSection SectionName.foot sel updateCell state.foot }

/-- Modelled from the spec: `insertRow` of the block's `state` helpers
(not in the reviewed files) inserts a blank row at the given index of the
named section. Per the rectangular-grid invariant the new row's width is
the explicit `columnCount` when given, otherwise the section's current
cell count (taken from its first row); when that width is zero the state
is returned unchanged. -/
def insertRow (state : TableAttributes) (sectionName : SectionName)
    (rowIndex : Nat) (columnCount : Option Nat) : TableAttributes :=
  if columnCount.getD (firstRowWidth (getSection state sectionName)) = 0 then
    state
  else
    setSection state sectionName
      ((getSection state sectionName).take rowIndex
        ++ blankRow sectionName
            (columnCount.getD (firstRowWidth (getSection state sectionName)))
          :: (getSection state sectionName).drop rowIndex)

/-- Modelled from the spec: `deleteRow` of the block's `state` helpers
(not in the reviewed files) removes the row at the given index of the
named section. -/
def deleteRow (state : TableAttributes) (sectionName : SectionName)
    (rowIndex : Nat) : TableAttributes :=
  setSection state sectionName ((getSection state sectionName).eraseIdx rowIndex)

/-- Insert a blank cell at the given column index into every row of one
section. -/
def insertColInSection (name : SectionName) (columnIndex : Nat)
    (s : TableSection) : TableSection :=
  s.map fun r =>
    { cells := r.cells.take columnIndex ++ blankCell name :: r.cells.drop columnIndex }

/-- Modelled from the spec: `insertColumn` of the block's `state` helpers
(not in the reviewed files) inserts a blank cell at the given column index
into every row of every section, keeping the grid rectangular. -/
def insertColumn (state : TableAttributes) (columnIndex : Nat) :
    TableAttributes :=
  { hasFixedLayout := state.hasFixedLayout
    caption := state.caption
    head := insertColInSection SectionName.head columnIndex state.head
    body := insertColInSection SectionName.body columnIndex state.body
    foot := insertColInSection SectionName.foot columnIndex state.foot }

/-- Modelled from the spec: `deleteColumn` of the block's `state` helpers
(not in the reviewed files) removes the cell at the given column index
from every row of the named section. -/
def deleteColumn (state : TableAttributes) (sectionName : SectionName)
    (columnIndex : Nat) : TableAttributes :=
  setSection state sectionName
    ((getSection state sectionName).map fun r =>
      { cells := r.cells.eraseIdx columnIndex })

/-- Width used when (re)creating a section: the cell count of the body's
first row, `1` when the body has no rows. -/
def bodyWidth (a : TableAttributes) : Nat :=
  match a.body with
  | [] => 1
  | r :: _ => r.cells.length

/-- `true` when the section's first row (if any) has at least one cell. -/
def firstRowNonempty (s : TableSection) : Bool :=
  match s with
  | [] => true
  | r :: _ => !r.cells.isEmpty

/-- Modelled from the spec: `toggleSection` of the block's `state` helpers
(not in the reviewed files) adds or removes the named section: a
non-empty section is emptied, and an empty one receives a single blank
row whose width follows the body's first row. -/
def toggleSection (state : TableAttributes) (sectionName : SectionName) :
    TableAttributes :=
  if isEmptyTableSection (getSection state sectionName) then
    insertRow state sectionName 0 (some (bodyWidth state))
  else
    setSection state sectionName []

/-- Longest decimal-digit run at the front of the characters, `none` when
there is no digit. -/
def parseDigits (cs : List Char) : Option Nat :=
  let ds := cs.takeWhile fun c => c.isDigit
  if ds.isEmpty then
    none
  else
    some (ds.foldl (fun acc c => acc * 10 + (c.toNat - 48)) 0)

/-- JS `parseInt(str, 10)`: skip leading whitespace, read an optional sign
and then a maximal run of decimal digits; `none` models `NaN`. -/
def parseIntBase10 (s : String) : Option Int :=
  let cs := s.data.dropWhile fun c => c.isWhitespace
  match cs with
  | '-' :: cs2 => (parseDigits cs2).map fun n => -(n : Int)
  | '+' :: cs2 => (parseDigits cs2).map fun n => (n : Int)
  | _ => (parseDigits cs).map fun n => (n : Int)

/-- JS `v || 2` applied to a parsed count: `NaN` (here `none`) and `0`
are falsy and replaced by the default `2`. -/
def jsFalsyOr2 (v : Option Int) : Int :=
  match v with
  | none => 2
  | some n => if n = 0 then 2 else n

/-- The component state `TableEdit` closes over: the current attributes,
the two creation-form counts and the selected cell. -/
structure EditState where
  attributes : TableAttributes
  initialRowCount : String
  initialColumnCount : String
  selectedCell : Option CellSel

deriving instance DecidableEq for EditState

/-- The observable effect of one handler call: the argument of the
`setAttributes` call if one is made, and the argument of the
`setSelectedCell` call if one is made (`some none` models clearing the
selection with `setSelectedCell()`). -/
structure HandlerEffect where
  setAttrs : Option TableAttributes
  setSel : Option (Option CellSel)

deriving instance DecidableEq for HandlerEffect

/-- A handler call that returns without doing anything. -/
def noEffect : HandlerEffect :=
  { setAttrs := none, setSel := none }

/-- `onChange`: change the content of the currently selected cell; returns
early when no cell is selected. -/
def onChange (st : EditState) (content : String) : HandlerEffect :=
  match st.selectedCell with
  | none => noEffect
  | some sel =>
      { setAttrs := some (updateSelectedCell st.attributes sel
          fun c => { c with content := content })
        setSel := none }

/-- `onChangeColumnAlignment`: convert the cell selection to a column
selection so that alignment is applied to the entire column; returns
early when no cell is selected. The column selection records no section
name and no row index (the unused `rowIndex` is modelled as `0`). -/
def onChangeColumnAlignment (st : EditState) (align : Option String) :
    HandlerEffect :=
  match st.selectedCell with
  | none => noEffect
  | some sel =>
      { setAttrs := some (updateSelectedCell st.attributes
          { type := SelType.column
            sectionName := none
            rowIndex := 0
            columnIndex := sel.columnIndex }
          fun c => { c with align := align })
        setSel := none }

/-- `onToggleHeaderSection`: add or remove a `head` table section. -/
def onToggleHeaderSection (st : EditState) : HandlerEffect :=
  { setAttrs := some (toggleSection st.attributes SectionName.head)
    setSel := none }

/-- `onToggleFooterSection`: add or remove a `foot` table section. -/
def onToggleFooterSection (st : EditState) : HandlerEffect :=
  { setAttrs := some (toggleSection st.attributes SectionName.foot)
    setSel := none }

/-- `onInsertRow`: insert a row at the selected row index plus `delta` and
select the first cell of the new row; returns early when no cell is
selected. A stored selection always carries a section name when this
handler is reachable; a selection without one cannot address a section
and is modelled as having no effect. -/
def onInsertRow (st : EditState) (delta : Nat) : HandlerEffect :=
  match st.selectedCell with
  | none => noEffect
  | some sel =>
      match sel.sectionName with
      | none => noEffect
      | some s =>
          { setAttrs := some (insertRow st.attributes s
              (sel.rowIndex + delta) none)
            setSel := some (some
              { type := SelType.cell
                sectionName := some s
                rowIndex := sel.rowIndex + delta
                columnIndex := 0 }) }

/-- `onDeleteRow`: clear the selection and delete the selected row;
returns early when no cell is selected. -/
def onDeleteRow (st : EditState) : HandlerEffect :=
  match st.selectedCell with
  | none => noEffect
  | some sel =>
      match sel.sectionName with
      | none => noEffect
      | some s =>
          { setAttrs := some (deleteRow st.attributes s sel.rowIndex)
            setSel := some none }

/-- `onInsertColumn`: insert a column at the selected column index plus
`delta` and select the first cell of the new column; returns early when
no cell is selected. The new selection records no section name. -/
def onInsertColumn (st : EditState) (delta : Nat) : HandlerEffect :=
  match st.selectedCell with
  | none => noEffect
  | some sel =>
      { setAttrs := some (insertColumn st.attributes (sel.columnIndex + delta))
        setSel := some (some
          { type := SelType.cell
            sectionName := none
            rowIndex := 0
            columnIndex := sel.columnIndex + delta }) }

/-- `onDeleteColumn`: clear the selection and delete the selected column;
returns early when no cell is selected. -/
def onDeleteColumn (st : EditState) : HandlerEffect :=
  match st.selectedCell with
  | none => noEffect
  | some sel =>
      match sel.sectionName with
      | none => noEffect
      | some s =>
          { setAttrs := some (deleteColumn st.attributes s sel.columnIndex)
            setSel := some none }

/-- `onCreateTable`: create a table from the creation-form counts, each
parsed as a base-10 integer with falsy results (`NaN`, `0`) replaced by
the default `2`; `setAttributes` merges the fresh body into the current
attributes. -/
def onCreateTable (st : EditState) : HandlerEffect :=
  { setAttrs := some
      { st.attributes with
        body := createTable
          (jsFalsyOr2 (parseIntBase10 st.initialRowCount))
          (jsFalsyOr2 (parseIntBase10 st.initialColumnCount)) }
    setSel := none }

/-- The two render branches of `TableEdit`. -/
inductive RenderOutput where
  | placeholder
  | tableFigure

deriving instance DecidableEq for RenderOutput

/-- The branch `TableEdit` renders: the table-creation placeholder form
when every section is empty, the table figure otherwise. -/
def tableEditRender (a : TableAttributes) : RenderOutput :=
  if isEmptyTableSection a.head && isEmptyTableSection a.body
      && isEmptyTableSection a.foot then
    RenderOutput.placeholder
  else
    RenderOutput.tableFigure

/-- All rows of a section have the same cell count. -/
def Rect (s : TableSection) : Prop :=
  ∀ r1 ∈ s, ∀ r2 ∈ s, r1.cells.length = r2.cells.length

/-- Every section of the attribute object is a rectangular grid. -/
def AllRect (a : TableAttributes) : Prop :=
  Rect a.head ∧ Rect a.body ∧ Rect a.foot

/-- Every attribute object a handler may pass to `setAttributes` is a
rectangular grid (vacuously true when no call is made). -/
def allRectO (o : Option TableAttributes) : Prop :=
  match o with
  | none => True
  | some a => AllRect a

/-- The cell at a row and column index of a section, when present. -/
def cellAt (s : TableSection) (ri ci : Nat) : Option Cell :=
  (s[ri]?).bind fun r => r.cells[ci]?

/-- The cell at a location of the attribute object a handler passed to
`setAttributes`, when such a call was made. -/
def optCellAt (o : Option TableAttributes) (name : SectionName)
    (ri ci : Nat) : Option Cell :=
  o.bind fun a => cellAt (getSection a name) ri ci

/-- The handler passed replacement attributes to `setAttributes` and the
named section is empty in them. -/
def setsEmptySection (e : HandlerEffect) (s : SectionName) : Prop :=
  match e.setAttrs with
  | none => False
  | some a => isEmptyTableSection (getSection a s) = true

/-- The spec's wording of section emptiness: the row sequence is empty or
every row has no cells. -/
def EmptySectionSpec (s : TableSection) : Prop :=
  s = [] ∨ ∀ r ∈ s, r.cells = []

/-- A sample cell used for concrete checks. -/
def sampleCell : Cell :=
  { content := "a", tag := "td", scope := none, align := none }

/-- Sample attributes: a one-by-one body, no head and no foot. -/
def sampleAttrs : TableAttributes :=
  { hasFixedLayout := false
    caption := ""
    head := []
    body := [{ cells := [sampleCell] }]
    foot := [] }

/-- A sample selection of the body's single cell. -/
def sampleSel : CellSel :=
  { type := SelType.cell
    sectionName := some SectionName.body
    rowIndex := 0
    columnIndex := 0 }

/-- A sample component state with the body's single cell selected. -/
def sampleState : EditState :=
  { attributes := sampleAttrs
    initialRowCount := "2"
    initialColumnCount := "2"
    selectedCell := some sampleSel }

/-- A sample component state with no cell selected. -/
def emptySelState : EditState :=
  { attributes := sampleAttrs
    initialRowCount := "2"
    initialColumnCount := "2"
    selectedCell := none }

/-- Attributes whose head section holds content that a remove/re-add
round trip cannot restore. -/
def exToggleAttrs : TableAttributes :=
  { hasFixedLayout := false
    caption := ""
    head := [{ cells := [{ content := "x", tag := "td", scope := none, align := none }] }]
    body := []
    foot := [] }

end TableBlock

namespace LinkPickerScreen

/-- The props `LinkPickerScreen` receives. -/
structure Props where
  returnScreenName : String
  withPadding : Bool

/-- The link object handed to `onLinkPicked`. -/
structure PickedLink where
  url : String
  title : String

/-- The parameters passed along with a `navigate` call. -/
structure RouteParams where
  inputValue : String
  text : String

deriving instance DecidableEq for RouteParams

/-- A call on the navigation object. -/
inductive NavAction where
  | navigate (screen : String) (params : RouteParams)
  | goBack

deriving instance DecidableEq for NavAction

/-- The observable effect of a screen callback: the navigation call it
makes immediately and the `setIsChildrenScrollable` arguments it schedules
to run after interactions. -/
structure ScreenEffect where
  nav : NavAction
  afterInteractions : List Bool

deriving instance DecidableEq for ScreenEffect

/-- `onLinkPicked`: navigate to the return screen with the picked url as
`inputValue` and the picked title as `text`, then schedule making the
bottom sheet children non-scrollable after interactions. -/
def onLinkPicked (props : Props) (link : PickedLink) : ScreenEffect :=
  { nav := NavAction.navigate props.returnScreenName
      { inputValue := link.url, text := link.title }
    afterInteractions := [false] }

/-- `onCancel`: go back on the navigation stack, then schedule making the
bottom sheet children non-scrollable after interactions. -/
def onCancel : ScreenEffect :=
  { nav := NavAction.goBack
    afterInteractions := [false] }

end LinkPickerScreen

namespace EditSiteHeader

/-- Whether the block toolbar is displayed: the viewport is not large, or
the preview device type is not `Desktop`, or the `fixedToolbar` feature
is active. -/
def displayBlockToolbar (isLargeViewport : Bool) (deviceType : String)
    (hasFixedToolbar : Bool) : Bool :=
  !isLargeViewport || !(deviceType = "Desktop" : Bool) || hasFixedToolbar

/-- The children of the header's toolbar container. -/
inductive ToolbarChild where
  | inserterButton
  | toolSelector
  | undoButton
  | redoButton
  | blockNavigationDropdown
  | blockToolbar
  | pageSwitcher

deriving instance DecidableEq for ToolbarChild

/-- The toolbar children the header renders; the block toolbar element is
present exactly when `displayBlockToolbar` holds. -/
def headerToolbarChildren (isLargeViewport : Bool) (deviceType : String)
    (hasFixedToolbar : Bool) : List ToolbarChild :=
  [ToolbarChild.inserterButton, ToolbarChild.toolSelector,
      ToolbarChild.undoButton, ToolbarChild.redoButton,
      ToolbarChild.blockNavigationDropdown]
    ++ (if displayBlockToolbar isLargeViewport deviceType hasFixedToolbar then
          [ToolbarChild.blockToolbar]
        else
          [])
    ++ [ToolbarChild.pageSwitcher]

end EditSiteHeader

namespace TableBlock

theorem getSection_setSection (a : TableAttributes) (n m : SectionName)
    (s : TableSection) :
    getSection (setSection a n s) m = if m = n then s else getSection a m := by
  cases n <;> cases m <;> simp [getSection, setSection]

theorem getSection_setSection_self (a : TableAttributes) (n : SectionName)
    (s : TableSection) : getSection (setSection a n s) n = s := by
  rw [getSection_setSection]
  simp

theorem setSection_setSection (a : TableAttributes) (n : SectionName)
    (s1 s2 : TableSection) :
    setSection (setSection a n s1) n s2 = setSection a n s2 := by
  cases n <;> rfl

theorem setSection_getSection_self (a : TableAttributes) (n : SectionName) :
    setSection a n (getSection a n) = a := by
  cases n <;> rfl

theorem mapIdxAux_getElem? {α β : Type} (f : Nat → α → β) (l : List α)
    (i j : Nat) : (mapIdxAux f i l)[j]? = (l[j]?).map (f (i + j)) := by
  induction l generalizing i j with
  | nil => simp [mapIdxAux]
  | cons a as ih =>
      cases j with
      | zero => simp [mapIdxAux]
      | succ j =>
          simp only [mapIdxAux, List.getElem?_cons_succ]
          rw [ih]
          have e : i + 1 + j = i + (j + 1) := by omega
          rw [e]

theorem mapIdxL_getElem? {α β : Type} (f : Nat → α → β) (l : List α)
    (j : Nat) : (mapIdxL f l)[j]? = (l[j]?).map (f j) := by
  unfold mapIdxL
  rw [mapIdxAux_getElem?]
  have e : 0 + j = j := by omega
  rw [e]

theorem cellAt_updateSection (name : SectionName) (sel : CellSel)
    (f : Cell → Cell) (s : TableSection) (ri ci : Nat) :
    cellAt (updateSection name sel f s) ri ci
      = (cellAt s ri ci).map fun c =>
          if isCellSelected
              { sectionName := name, rowIndex := ri, columnIndex := ci }
              sel then
            f c
          else
            c := by
  unfold cellAt updateSection
  rw [mapIdxL_getElem?]
  cases h : s[ri]? with
  | none => simp
  | some row => simp [mapIdxL_getElem?]

theorem getSection_updateSelectedCell (a : TableAttributes) (sel : CellSel)
    (f : Cell → Cell) (n : SectionName) :
    getSection (updateSelectedCell a sel f) n
      = updateSection n sel f (getSection a n) := by
  cases n <;> rfl

end TableBlock

namespace TableBlock

/-- Claim C2: when no cell is selected, every mutating cell action of
`TableEdit` (content change, column alignment, insert row, delete row,
insert column, delete column) returns without calling `setAttributes`,
leaving the table attributes unchanged. -/
theorem no_selection_no_setAttributes (st : EditState) (content : String)
    (align : Option String) (delta : Nat) (h : st.selectedCell = none) :
    (onChange st content).setAttrs = none
      ∧ (onChangeColumnAlignment st align).setAttrs = none
      ∧ (onInsertRow st delta).setAttrs = none
      ∧ (onDeleteRow st).setAttrs = none
      ∧ (onInsertColumn st delta).setAttrs = none
      ∧ (onDeleteColumn st).setAttrs = none := by
  simp [onChange, onChangeColumnAlignment, onInsertRow, onDeleteRow,
    onInsertColumn, onDeleteColumn, h, noEffect]

/-- Witness for claim C2 at a concrete unselected state. -/
theorem no_selection_no_setAttributes_witness :
    emptySelState.selectedCell = none
      ∧ ((onChange emptySelState "a").setAttrs = none
          ∧ (onChangeColumnAlignment emptySelState (some "left")).setAttrs = none
          ∧ (onInsertRow emptySelState 0).setAttrs = none
          ∧ (onDeleteRow emptySelState).setAttrs = none
          ∧ (onInsertColumn emptySelState 0).setAttrs = none
          ∧ (onDeleteColumn emptySelState).setAttrs = none) :=
  ⟨rfl, no_selection_no_setAttributes emptySelState "a" (some "left") 0 rfl⟩

/-- Claim C9: with a selected cell in section `s` at row `r`,
`onInsertRow delta` selects the first cell (column `0`) of the new row at
`r + delta` in `s`, and `onInsertColumn delta` selects the cell at row
`0` of the new column, recording no section name. -/
theorem insert_selects_new_cell (st : EditState) (sel : CellSel)
    (s : SectionName) (delta : Nat) (h1 : st.selectedCell = some sel)
    (h2 : sel.sectionName = some s) :
    (onInsertRow st delta).setSel = some (some
        { type := SelType.cell
          sectionName := some s
          rowIndex := sel.rowIndex + delta
          columnIndex := 0 })
      ∧ (onInsertColumn st delta).setSel = some (some
          { type := SelType.cell
            sectionName := none
            rowIndex := 0
            columnIndex := sel.columnIndex + delta }) := by
  simp [onInsertRow, onInsertColumn, h1, h2]

/-- Witness for claim C9 at a concrete selected state. -/
theorem insert_selects_new_cell_witness :
    sampleState.selectedCell = some sampleSel
      ∧ sampleSel.sectionName = some SectionName.body
      ∧ ((onInsertRow sampleState 1).setSel = some (some
            { type := SelType.cell
              sectionName := some SectionName.body
              rowIndex := sampleSel.rowIndex + 1
              columnIndex := 0 })
          ∧ (onInsertColumn sampleState 1).setSel = some (some
              { type := SelType.cell
                sectionName := none
                rowIndex := 0
                columnIndex := sampleSel.columnIndex + 1 })) :=
  ⟨rfl, rfl, insert_selects_new_cell sampleState sampleSel SectionName.body 1 rfl rfl⟩

/-- Claim C4: with a selected cell of column index `c`,
`onChangeColumnAlignment` calls `setAttributes`, the resulting attributes
update the `align` attribute of every cell whose column index is `c` in
every row of every section to the given value, and every other cell (and
every other attribute of the updated cells) is unchanged. -/
theorem onChangeColumnAlignment_uniform_column (st : EditState)
    (sel : CellSel) (align : Option String) (name : SectionName)
    (ri ci : Nat) (h : st.selectedCell = some sel) :
    ((onChangeColumnAlignment st align).setAttrs).isSome = true
      ∧ optCellAt (onChangeColumnAlignment st align).setAttrs name ri ci
          = (cellAt (getSection st.attributes name) ri ci).map fun cell =>
              if ci = sel.columnIndex then { cell with align := align }
              else cell := by
  constructor
  · simp [onChangeColumnAlignment, h]
  · simp only [onChangeColumnAlignment, h, optCellAt, Option.some_bind]
    rw [getSection_updateSelectedCell, cellAt_updateSection]
    by_cases e : ci = sel.columnIndex
    · simp [isCellSelected, e]
    · simp [isCellSelected, e]

/-- Witness for claim C4 at a concrete selected state, section `body`,
row `0`, column `0`. -/
theorem onChangeColumnAlignment_uniform_column_witness :
    sampleState.selectedCell = some sampleSel
      ∧ (((onChangeColumnAlignment sampleState (some "center")).setAttrs).isSome = true
          ∧ optCellAt (onChangeColumnAlignment sampleState (some "center")).setAttrs
                SectionName.body 0 0
              = (cellAt (getSection sampleState.attributes SectionName.body) 0 0).map
                  fun cell =>
                    if 0 = sampleSel.columnIndex then { cell with align := some "center" }
                    else cell) :=
  ⟨rfl, onChangeColumnAlignment_uniform_column sampleState sampleSel
    (some "center") SectionName.body 0 0 rfl⟩

/-- Claim C5: `onCreateTable` calls `createTable` with the row and column
counts obtained by parsing the entered counts as base-10 integers, and a
count whose parse yields `NaN` or `0` is coerced to the default `2`. -/
theorem onCreateTable_parse_defaults (st : EditState) (s : String)
    (h : parseIntBase10 s = none ∨ parseIntBase10 s = some 0) :
    (onCreateTable st).setAttrs = some
        { st.attributes with
          body := createTable
            (jsFalsyOr2 (parseIntBase10 st.initialRowCount))
            (jsFalsyOr2 (parseIntBase10 st.initialColumnCount)) }
      ∧ jsFalsyOr2 (parseIntBase10 s) = 2 := by
  refine ⟨rfl, ?_⟩
  rcases h with h | h <;> simp [jsFalsyOr2, h]

/-- Witness for claim C5 at a concrete state and the non-numeric input
string. -/
theorem onCreateTable_parse_defaults_witness :
    (parseIntBase10 "abc" = none ∨ parseIntBase10 "abc" = some 0)
      ∧ ((onCreateTable emptySelState).setAttrs = some
            { emptySelState.attributes with
              body := createTable
                (jsFalsyOr2 (parseIntBase10 emptySelState.initialRowCount))
                (jsFalsyOr2 (parseIntBase10 emptySelState.initialColumnCount)) }
          ∧ jsFalsyOr2 (parseIntBase10 "abc") = 2) :=
  ⟨Or.inl (by decide), onCreateTable_parse_defaults emptySelState "abc" (Or.inl (by decide))⟩

theorem isEmptyTableSection_iff (s : TableSection) :
    isEmptyTableSection s = true ↔ EmptySectionSpec s := by
  simp [isEmptyTableSection, EmptySectionSpec, List.isEmpty_iff,
    List.all_eq_true]

/-- Claim C6: a table section is empty exactly when its row sequence is
empty or every row in it has no cells, and `TableEdit` renders the
table-creation placeholder form if and only if all three sections are
empty in this sense. -/
theorem placeholder_iff_all_sections_empty (a : TableAttributes) :
    tableEditRender a = RenderOutput.placeholder
      ↔ (EmptySectionSpec a.head ∧ EmptySectionSpec a.body
          ∧ EmptySectionSpec a.foot) := by
  have hb : tableEditRender a = RenderOutput.placeholder
      ↔ (isEmptyTableSection a.head && isEmptyTableSection a.body
          && isEmptyTableSection a.foot) = true := by
    unfold tableEditRender
    split
    next hc => simp [hc]
    next hc => simp [hc]
  rw [hb]
  simp [Bool.and_eq_true, isEmptyTableSection_iff, and_assoc]

end TableBlock

namespace LinkPickerScreen

/-- Claim C8: `onLinkPicked` navigates to the screen named by the
`returnScreenName` prop with parameters `inputValue = url` and
`text = title`, `onCancel` goes back on the navigation stack, and both
schedule `setIsChildrenScrollable false` after interactions. -/
theorem link_picker_navigation (props : Props) (link : PickedLink) :
    (onLinkPicked props link).nav
        = NavAction.navigate props.returnScreenName
            { inputValue := link.url, text := link.title }
      ∧ (onLinkPicked props link).afterInteractions = [false]
      ∧ onCancel.nav = NavAction.goBack
      ∧ onCancel.afterInteractions = [false] :=
  ⟨rfl, rfl, rfl, rfl⟩

end LinkPickerScreen

namespace EditSiteHeader

/-- Claim C10: the header displays the block toolbar element if and only
if the viewport is not large, or the preview device type is not
`Desktop`, or the `fixedToolbar` feature is active; in every other
combination of the three inputs it is not rendered. -/
theorem block_toolbar_rendered_iff (ilv : Bool) (dt : String) (hft : Bool) :
    ToolbarChild.blockToolbar ∈ headerToolbarChildren ilv dt hft
      ↔ (ilv = false ∨ dt ≠ "Desktop" ∨ hft = true) := by
  unfold headerToolbarChildren displayBlockToolbar
  by_cases h1 : ilv <;> by_cases h2 : dt = "Desktop" <;> by_cases h3 : hft <;>
    simp [h1, h2, h3]

end EditSiteHeader

namespace TableBlock

theorem mem_insert_split {s : TableSection} {i : Nat} {row r : Row}
    (h : r ∈ s.take i ++ row :: s.drop i) : r = row ∨ r ∈ s := by
  rcases List.mem_append.1 h with h | h
  · exact Or.inr (List.take_subset _ _ h)
  · rcases List.mem_cons.1 h with h | h
    · exact Or.inl h
    · exact Or.inr (List.drop_subset _ _ h)

theorem rect_insert {s : TableSection} {i : Nat} {row : Row} (h : Rect s)
    (hw : ∀ r ∈ s, r.cells.length = row.cells.length) :
    Rect (s.take i ++ row :: s.drop i) := by
  intro r1 h1 r2 h2
  rcases mem_insert_split h1 with e1 | m1 <;> rcases mem_insert_split h2 with e2 | m2
  · rw [e1, e2]
  · rw [e1]
    exact (hw r2 m2).symm
  · rw [e2]
    exact hw r1 m1
  · exact h r1 m1 r2 m2

theorem rect_setSection {a : TableAttributes} {n : SectionName}
    {s : TableSection} (h : AllRect a) (hs : Rect s) :
    AllRect (setSection a n s) := by
  cases n
  · exact ⟨hs, h.2.1, h.2.2⟩
  · exact ⟨h.1, hs, h.2.2⟩
  · exact ⟨h.1, h.2.1, hs⟩

theorem rect_getSection {a : TableAttributes} (h : AllRect a)
    (n : SectionName) : Rect (getSection a n) := by
  cases n
  · exact h.1
  · exact h.2.1
  · exact h.2.2

theorem width_of_mem {s : TableSection} (h : Rect s) {r : Row} (hr : r ∈ s) :
    r.cells.length = firstRowWidth s := by
  cases s with
  | nil => cases hr
  | cons r0 rest => exact h r hr r0 (List.mem_cons_self r0 rest)

theorem insertRow_allRect {a : TableAttributes} (h : AllRect a)
    (sn : SectionName) (i : Nat) : AllRect (insertRow a sn i none) := by
  unfold insertRow
  by_cases hc : (none : Option Nat).getD (firstRowWidth (getSection a sn)) = 0
  · rw [if_pos hc]
    exact h
  · rw [if_neg hc]
    apply rect_setSection h
    apply rect_insert (rect_getSection h sn)
    intro r hr
    have hwid := width_of_mem (rect_getSection h sn) hr
    simp only [blankRow, List.length_replicate, Option.getD_none]
    exact hwid

theorem length_insertCell (cells : List Cell) (ci : Nat) (name : SectionName) :
    (cells.take ci ++ blankCell name :: cells.drop ci).length
      = cells.length + 1 := by
  simp [List.length_append]
  omega

theorem rect_insertColSection {s : TableSection} (h : Rect s)
    (name : SectionName) (ci : Nat) : Rect (insertColInSection name ci s) := by
  intro r1 h1 r2 h2
  rcases List.mem_map.1 h1 with ⟨x1, hx1, e1⟩
  rcases List.mem_map.1 h2 with ⟨x2, hx2, e2⟩
  rw [← e1, ← e2]
  simp only [length_insertCell]
  rw [h x1 hx1 x2 hx2]

theorem insertColumn_allRect {a : TableAttributes} (h : AllRect a)
    (ci : Nat) : AllRect (insertColumn a ci) :=
  ⟨rect_insertColSection h.1 SectionName.head ci,
    rect_insertColSection h.2.1 SectionName.body ci,
    rect_insertColSection h.2.2 SectionName.foot ci⟩

/-- Claim C1: when every section of the attributes is a rectangular grid,
any attributes passed to `setAttributes` by `onInsertRow` or
`onInsertColumn` again have every section rectangular. -/
theorem insert_preserves_rectangular (st : EditState) (delta : Nat)
    (h : AllRect st.attributes) :
    allRectO (onInsertRow st delta).setAttrs
      ∧ allRectO (onInsertColumn st delta).setAttrs := by
  constructor
  · unfold onInsertRow
    cases hsel : st.selectedCell with
    | none => trivial
    | some sel =>
        cases hsn : sel.sectionName with
        | none =>
            simp only [hsn]
            trivial
        | some s =>
            simp only [hsn]
            exact insertRow_allRect h s (sel.rowIndex + delta)
  · unfold onInsertColumn
    cases hsel : st.selectedCell with
    | none => trivial
    | some sel => exact insertColumn_allRect h (sel.columnIndex + delta)

/-- Witness for claim C1 at a concrete rectangular state. -/
theorem insert_preserves_rectangular_witness :
    AllRect sampleState.attributes
      ∧ (allRectO (onInsertRow sampleState 1).setAttrs
          ∧ allRectO (onInsertColumn sampleState 1).setAttrs) :=
  ⟨by unfold AllRect Rect; decide,
    insert_preserves_rectangular sampleState 1 (by unfold AllRect Rect; decide)⟩

/-- Claim C7: with a cell selected in section `s`, deleting the only
remaining row of `s` via `onDeleteRow`, or the only remaining column of
`s` via `onDeleteColumn`, passes `setAttributes` attributes in which `s`
is empty. -/
theorem delete_last_row_or_column_empties (st : EditState) (sel : CellSel)
    (s : SectionName) (h1 : st.selectedCell = some sel)
    (h2 : sel.sectionName = some s) :
    ((getSection st.attributes s).length = 1 → sel.rowIndex = 0 →
        setsEmptySection (onDeleteRow st) s)
      ∧ ((∀ r ∈ getSection st.attributes s, r.cells.length = 1) →
          sel.columnIndex = 0 → setsEmptySection (onDeleteColumn st) s) := by
  constructor
  · intro hlen hri
    simp only [onDeleteRow, h1, h2, setsEmptySection]
    unfold deleteRow
    rw [getSection_setSection_self]
    rcases List.length_eq_one.1 hlen with ⟨r, hr⟩
    rw [hr, hri]
    rfl
  · intro hall hci
    simp only [onDeleteColumn, h1, h2, setsEmptySection]
    unfold deleteColumn
    rw [getSection_setSection_self]
    unfold isEmptyTableSection
    rw [Bool.or_eq_true]
    right
    rw [List.all_eq_true]
    intro r' hr'
    rcases List.mem_map.1 hr' with ⟨r, hr, e⟩
    rcases List.length_eq_one.1 (hall r hr) with ⟨c, hc⟩
    rw [← e]
    simp [hc, hci]

/-- Witness for claim C7 at a concrete one-by-one body. -/
theorem delete_last_row_or_column_empties_witness :
    sampleState.selectedCell = some sampleSel
      ∧ sampleSel.sectionName = some SectionName.body
      ∧ (getSection sampleState.attributes SectionName.body).length = 1
      ∧ sampleSel.rowIndex = 0
      ∧ (∀ r ∈ getSection sampleState.attributes SectionName.body,
          r.cells.length = 1)
      ∧ sampleSel.columnIndex = 0
      ∧ setsEmptySection (onDeleteRow sampleState) SectionName.body
      ∧ setsEmptySection (onDeleteColumn sampleState) SectionName.body := by
  have h := delete_last_row_or_column_empties sampleState sampleSel
    SectionName.body rfl rfl
  exact ⟨rfl, rfl, by decide, rfl, by decide, rfl,
    h.1 (by decide) rfl, h.2 (by decide) rfl⟩

end TableBlock

namespace TableBlock

theorem isEmptyTableSection_nil : isEmptyTableSection ([] : TableSection) = true :=
  rfl

theorem isEmptyTableSection_blank_cons (sn : SectionName) (cc : Nat)
    (hcc : cc ≠ 0) (rest : TableSection) :
    isEmptyTableSection (blankRow sn cc :: rest) = false := by
  simp [isEmptyTableSection, blankRow, List.isEmpty_iff,
    List.replicate_eq_nil_iff, hcc]

theorem bodyWidth_pos {a : TableAttributes}
    (hb : firstRowNonempty a.body = true) : bodyWidth a ≠ 0 := by
  unfold bodyWidth
  unfold firstRowNonempty at hb
  cases h : a.body with
  | nil => simp
  | cons r rest =>
      rw [h] at hb
      have hb2 : (!r.cells.isEmpty) = true := hb
      show r.cells.length ≠ 0
      intro e
      rw [List.eq_nil_of_length_eq_zero e] at hb2
      simp at hb2

theorem toggleSection_of_empty {a : TableAttributes} {s : SectionName}
    (he : isEmptyTableSection (getSection a s) = true) (hw : bodyWidth a ≠ 0) :
    toggleSection a s
      = setSection a s (blankRow s (bodyWidth a) :: getSection a s) := by
  unfold toggleSection
  rw [if_pos he]
  unfold insertRow
  simp only [Option.getD_some]
  rw [if_neg hw]
  simp

theorem toggleSection_of_nonempty {a : TableAttributes} {s : SectionName}
    (he : isEmptyTableSection (getSection a s) = false) :
    toggleSection a s = setSection a s [] := by
  unfold toggleSection
  rw [he]
  simp

theorem bodyWidth_setSection_nil_ne_zero {a : TableAttributes}
    (hb : firstRowNonempty a.body = true) (n : SectionName) :
    bodyWidth (setSection a n []) ≠ 0 := by
  cases n
  · exact bodyWidth_pos hb
  · simp [bodyWidth, setSection]
  · exact bodyWidth_pos hb

/-- Counterexample to claim C3 as stated: removing a head section that
holds content and toggling again produces a fresh blank row, not the
original attribute object. -/
theorem toggle_toggle_not_identity :
    toggleSection (toggleSection exToggleAttrs SectionName.head)
        SectionName.head ≠ exToggleAttrs := by
  decide

/-- Claim C3 (amended): provided the body's first row, if any, has at
least one cell, applying `toggleSection` twice to the same section
restores whether that section is empty; and when the section has no rows
at all the double toggle is exactly the identity. It is not the identity
in general, because re-adding a removed section produces a single blank
row instead of the removed contents. -/
theorem toggle_toggle_section (a : TableAttributes) (s : SectionName)
    (hb : firstRowNonempty a.body = true) :
    isEmptyTableSection
        (getSection (toggleSection (toggleSection a s) s) s)
      = isEmptyTableSection (getSection a s)
      ∧ (getSection a s = [] → toggleSection (toggleSection a s) s = a) := by
  have hw0 : bodyWidth a ≠ 0 := bodyWidth_pos hb
  cases he : isEmptyTableSection (getSection a s) with
  | true =>
      have ht1 : toggleSection a s
          = setSection a s (blankRow s (bodyWidth a) :: getSection a s) :=
        toggleSection_of_empty he hw0
      have he1 : isEmptyTableSection (getSection (toggleSection a s) s) = false := by
        rw [ht1, getSection_setSection_self]
        exact isEmptyTableSection_blank_cons s _ hw0 _
      have ht2 : toggleSection (toggleSection a s) s
          = setSection (toggleSection a s) s [] :=
        toggleSection_of_nonempty he1
      constructor
      · rw [ht2, getSection_setSection_self]
        rfl
      · intro h0
        rw [ht2, ht1, setSection_setSection, ← h0, setSection_getSection_self]
  | false =>
      have ht1 : toggleSection a s = setSection a s [] :=
        toggleSection_of_nonempty he
      have he1 : isEmptyTableSection (getSection (toggleSection a s) s) = true := by
        rw [ht1, getSection_setSection_self]
        rfl
      have hw1 : bodyWidth (toggleSection a s) ≠ 0 := by
        rw [ht1]
        exact bodyWidth_setSection_nil_ne_zero hb s
      have ht2 : toggleSection (toggleSection a s) s
          = setSection (toggleSection a s) s
              (blankRow s (bodyWidth (toggleSection a s))
                :: getSection (toggleSection a s) s) :=
        toggleSection_of_empty he1 hw1
      constructor
      · rw [ht2, getSection_setSection_self]
        exact isEmptyTableSection_blank_cons s _ hw1 _
      · intro h0
        rw [h0] at he
        simp [isEmptyTableSection] at he
  
/-- Witness for the amended claim C3 at concrete attributes whose head
section has no rows. -/
theorem toggle_toggle_section_witness :
    firstRowNonempty sampleAttrs.body = true
      ∧ isEmptyTableSection
            (getSection
              (toggleSection (toggleSection sampleAttrs SectionName.head)
                SectionName.head)
              SectionName.head)
          = isEmptyTableSection (getSection sampleAttrs SectionName.head)
      ∧ getSection sampleAttrs SectionName.head = []
      ∧ toggleSection (toggleSection sampleAttrs SectionName.head)
            SectionName.head
          = sampleAttrs := by
  have h := toggle_toggle_section sampleAttrs SectionName.head (by decide)
  exact ⟨by decide, h.1, rfl, h.2 rfl⟩

end TableBlock
